import Mathlib

/-!
Shallow embedding of `src/sympathetic.c` (Sympathetic String Reverb LADSPA
plugin).  Audio samples (C `float` / `LADSPA_Data`) are modelled as rationals;
the machine `int` fields `size` and `idx` of `struct comb` are modelled as
naturals (both are nonnegative throughout the program).  `malloc` outcomes are
modelled by an allocation oracle `alloc : ℕ → Bool`, consulted once per
`malloc` call in program order; a comb whose sample buffer failed to allocate
carries `buffer = none` (the C `NULL` pointer left by `memset`).
-/

/-- `#define FEEDBACK_OFFSET (0.96f)` -/
def FEEDBACK_OFFSET : ℚ := 96 / 100

/-- `#define FEEDBACK_RANGE (0.039f)` -/
def FEEDBACK_RANGE : ℚ := 39 / 1000

/-- `#define DAMPING_RANGE (0.5f)` -/
def DAMPING_RANGE : ℚ := 1 / 2

/-- `struct comb`: one tuned delay line.  `buffer = none` models a `NULL`
buffer pointer (as left by `memset(comb, 0, ...)` before allocation). -/
structure Comb where
  store : ℚ
  buffer : Option (List ℚ)
  size : ℕ
  idx : ℕ
deriving DecidableEq, Repr

/-- `struct symp` without the port-pointer plumbing: the control values the
pointers refer to are passed as explicit arguments to the operations that
dereference them. -/
structure Symp where
  run_adding_gain : ℚ
  combs : List Comb
  damping : ℚ
  damp1 : ℚ
  damp2 : ℚ
  feedback : ℚ
  scaled_feedback : ℚ
  sample_rate : ℕ
deriving DecidableEq, Repr

/-- The control-port values read by `symp_run_effect` (the plugin dereferences
the connected pointers at the start of each call). -/
structure Ctrl where
  damping : ℚ
  feedback : ℚ
  gain_input : ℚ
  wet_left : ℚ
  wet_right : ℚ
deriving DecidableEq, Repr

/-- `size = symp->sample_rate / *symp->ctrl_tunings[i]` — float division of
the sample rate by the tuning, truncated by assignment to `int`.  For a
positive tuning the quotient is nonnegative, so truncation is `floor`. -/
def newCombSize (R : ℕ) (f : ℚ) : ℕ := (⌊(R : ℚ) / f⌋).toNat

/-- The comb left in `symp->combs` by a fully successful loop iteration of
`symp_setup_combs`: zeroed struct, zeroed buffer of `size` floats. -/
def newComb (R : ℕ) (f : ℚ) : Comb :=
  { store := 0, buffer := some (List.replicate (newCombSize R f) 0)
    size := newCombSize R f, idx := 0 }

/-- The comb left in `symp->combs` when its own `malloc` succeeded but the
buffer `malloc` failed: all fields still zero from `memset`, buffer `NULL`. -/
def failedComb : Comb := { store := 0, buffer := none, size := 0, idx := 0 }

/-- The loop of `symp_setup_combs` (lines 78-91): walk the tuning ports,
skip tunings `<= 0`, allocate the comb struct and then its buffer, appending
to the comb list; return `-1` as soon as either `malloc` fails, else `1`.
Returns (comb list, next allocation index, C return value). -/
def symp_setup_combs_aux (alloc : ℕ → Bool) (R : ℕ) :
    List ℚ → ℕ → List Comb → List Comb × ℕ × Int
  | [], j, acc => (acc, j, 1)
  | f :: fs, j, acc =>
    if f ≤ 0 then
      symp_setup_combs_aux alloc R fs j acc
    else if alloc j then
      if alloc (j + 1) then
        symp_setup_combs_aux alloc R fs (j + 2) (acc ++ [newComb R f])
      else
        (acc ++ [failedComb], j + 2, -1)
    else
      (acc, j + 1, -1)

/-- `symp_setup_combs`: build combs from the current tuning-port values,
appending to whatever `symp->combs` already holds (the C code never clears
`num_combs` here).  Returns the updated state and the C `int` result. -/
def symp_setup_combs (alloc : ℕ → Bool) (tunings : List ℚ) (s : Symp) :
    Symp × Int :=
  let r := symp_setup_combs_aux alloc s.sample_rate tunings 0 s.combs
  ({ s with combs := r.1 }, r.2.2)

/-- `symp_cleanup_combs`: free every comb and reset `num_combs` to 0. -/
def symp_cleanup_combs (s : Symp) : Symp := { s with combs := [] }

/-- `symp_instantiate`: `malloc` + `memset 0`, then `sample_rate` is stored
and `damp2` is assigned `0` and then `1` (lines 116-117 assign `damp2`
twice; `damp1` keeps its `memset` value `0`). -/
def symp_instantiate (sample_rate : ℕ) : Symp :=
  { run_adding_gain := 0, combs := [], damping := 0, damp1 := 0, damp2 := 1
    feedback := 0, scaled_feedback := 0, sample_rate := sample_rate }

/-- `symp_activate`: calls `symp_setup_combs` and tests `!result`; the
function returns `void`, so only the state update is observable. -/
def symp_activate (alloc : ℕ → Bool) (tunings : List ℚ) (s : Symp) : Symp :=
  (symp_setup_combs alloc tunings s).1

/-- The condition under which `symp_activate` would print "Out of memory!":
the C test `!symp_setup_combs(symp)`, i.e. the returned `int` equals 0. -/
def symp_activate_reports_failure (alloc : ℕ → Bool) (tunings : List ℚ)
    (s : Symp) : Bool :=
  (symp_setup_combs alloc tunings s).2 == 0

/-- `symp_deactivate`: release the bank. -/
def symp_deactivate (s : Symp) : Symp := symp_cleanup_combs s

/-- `symp_set_run_adding_gain`. -/
def symp_set_run_adding_gain (gain : ℚ) (s : Symp) : Symp :=
  { s with run_adding_gain := gain }

/-- The comb inner-loop body of `symp_run_effect` (lines 220-225): tap the
buffer at the write index, update the damped feedback store, overwrite the
tapped slot with input plus scaled feedback of the just-updated store, and
advance the index with wrap-around.  Returns the tapped value (added to
`out`) and the updated comb. -/
def comb_step (damp1 damp2 feedback inS : ℚ) (c : Comb) : ℚ × Comb :=
  let tmp := (c.buffer.getD []).getD c.idx 0
  let store := tmp * damp2 + c.store * damp1
  { fst := tmp
    snd :=
    { store := store
      buffer := c.buffer.map (fun b => b.set c.idx (inS + store * feedback))
      size := c.size
      idx := if c.size ≤ c.idx + 1 then 0 else c.idx + 1 } }

/-- The inner `for (c = 0; c < symp->num_combs; c++)` loop: advance every
comb on this input sample and accumulate the tapped outputs. -/
def combs_advance (damp1 damp2 feedback inS : ℚ) :
    List Comb → ℚ × List Comb
  | [] => (0, [])
  | c :: cs =>
    let r := comb_step damp1 damp2 feedback inS c
    let rest := combs_advance damp1 damp2 feedback inS cs
    (r.1 + rest.1, r.2 :: rest.2)

/-- The wet-gain clamping at the top of `symp_run_effect` (lines 194-198). -/
def clampWet (w : ℚ) : ℚ := if w < 0 then 0 else if 1 < w then 1 else w

/-- The cache-on-change refresh of the derived damping and feedback
coefficients (lines 200-209). -/
def symp_refresh (ctrl_damping ctrl_feedback : ℚ) (s : Symp) : Symp :=
  let s1 :=
    if ctrl_damping ≠ s.damping then
      { s with damping := ctrl_damping
               damp1 := ctrl_damping * DAMPING_RANGE
               damp2 := 1 - ctrl_damping * DAMPING_RANGE }
    else s
  if ctrl_feedback ≠ s1.feedback then
    { s1 with feedback := ctrl_feedback
              scaled_feedback := FEEDBACK_OFFSET + ctrl_feedback * FEEDBACK_RANGE }
  else s1

/-- The per-sample loop of `symp_run_effect` (lines 213-240).  The output
buffers are modelled together with the positions of the `out1`/`out2` write
pointers, because in add mode a pointer only advances when its channel's wet
gain is `> 0`. -/
def symp_run_loop (add : Bool) (ag ig wl wr d1 d2 fb : ℚ) :
    List ℚ → List Comb → List ℚ → ℕ → List ℚ → ℕ →
    List Comb × List ℚ × List ℚ
  | [], combs, o1, _, o2, _ => (combs, o1, o2)
  | x :: xs, combs, o1, p1, o2, p2 =>
    let inS := x * ig
    let r := combs_advance d1 d2 fb inS combs
    if add then
      let q1 : List ℚ × ℕ :=
        if 0 < wl then (o1.set p1 (o1.getD p1 0 + r.1 * ag * wl), p1 + 1)
        else (o1, p1)
      let q2 : List ℚ × ℕ :=
        if 0 < wr then (o2.set p2 (o2.getD p2 0 + r.1 * ag * wr), p2 + 1)
        else (o2, p2)
      symp_run_loop add ag ig wl wr d1 d2 fb xs r.2 q1.1 q1.2 q2.1 q2.2
    else
      symp_run_loop add ag ig wl wr d1 d2 fb xs r.2
        (o1.set p1 (r.1 * wl)) (p1 + 1) (o2.set p2 (r.1 * wr)) (p2 + 1)

/-- `symp_run_effect`: clamp the wet gains, refresh the coefficient caches,
then run the per-sample loop over the block.  `input` is the audio input
block, `out1`/`out2` the prior contents of the two output buffers.  Returns
the updated plugin state and the two output buffers after the call. -/
def symp_run_effect (ctrl : Ctrl) (add : Bool) (input out1 out2 : List ℚ)
    (s : Symp) : Symp × List ℚ × List ℚ :=
  let wl := clampWet ctrl.wet_left
  let wr := clampWet ctrl.wet_right
  let s1 := symp_refresh ctrl.damping ctrl.feedback s
  let r := symp_run_loop add s.run_adding_gain ctrl.gain_input wl wr
    s1.damp1 s1.damp2 s1.scaled_feedback input s1.combs out1 0 out2 0
  ({ s1 with combs := r.1 }, r.2.1, r.2.2)

/-- `symp_run`: replace mode. -/
def symp_run (ctrl : Ctrl) (input out1 out2 : List ℚ) (s : Symp) :
    Symp × List ℚ × List ℚ :=
  symp_run_effect ctrl false input out1 out2 s

/-- `symp_run_adding`: add mode. -/
def symp_run_adding (ctrl : Ctrl) (input out1 out2 : List ℚ) (s : Symp) :
    Symp × List ℚ × List ℚ :=
  symp_run_effect ctrl true input out1 out2 s

/-- A freshly built comb of delay length `L`: zero store, zeroed buffer of
`L` samples, write index 0 (what `symp_setup_combs` constructs). -/
def mkFresh (L : ℕ) : Comb :=
  { store := 0, buffer := some (List.replicate L 0), size := L, idx := 0 }

/-- A unit impulse followed by zeros. -/
def impulse : ℕ → ℚ := fun n => if n = 0 then 1 else 0

/-- Iterate `comb_step` over an input stream: state after `n` samples. -/
def comb_iterate (d1 d2 fb : ℚ) (inp : ℕ → ℚ) (c : Comb) : ℕ → Comb
  | 0 => c
  | n + 1 => (comb_step d1 d2 fb (inp n) (comb_iterate d1 d2 fb inp c n)).2

/-- Output of the comb on sample `n` of the input stream. -/
def comb_output (d1 d2 fb : ℚ) (inp : ℕ → ℚ) (c : Comb) (n : ℕ) : ℚ :=
  (comb_step d1 d2 fb (inp n) (comb_iterate d1 d2 fb inp c n)).1

/-- The buffer contents of a comb that has recirculated one unit impulse:
`1` in slot 0, zeros elsewhere. -/
def oneHot (L : ℕ) : List ℚ := 1 :: List.replicate (L - 1) 0

/-- Modelled from the spec (§4.3, §3): the behaviour the spec calls
equivalent to the cache — recompute `scaledFeedback` (and the damping
coefficients) from the raw control values on every refresh, unconditionally. -/
def symp_refresh_spec (ctrl_damping ctrl_feedback : ℚ) (s : Symp) : Symp :=
  { s with damping := ctrl_damping
           damp1 := ctrl_damping * DAMPING_RANGE
           damp2 := 1 - ctrl_damping * DAMPING_RANGE
           feedback := ctrl_feedback
           scaled_feedback := FEEDBACK_OFFSET + ctrl_feedback * FEEDBACK_RANGE }

/-- `symp_run_effect` with the spec's always-recompute refresh in place of
the cache-on-change refresh; otherwise identical. -/
def symp_run_effect_spec (ctrl : Ctrl) (add : Bool) (input out1 out2 : List ℚ)
    (s : Symp) : Symp × List ℚ × List ℚ :=
  let wl := clampWet ctrl.wet_left
  let wr := clampWet ctrl.wet_right
  let s1 := symp_refresh_spec ctrl.damping ctrl.feedback s
  let r := symp_run_loop add s.run_adding_gain ctrl.gain_input wl wr
    s1.damp1 s1.damp2 s1.scaled_feedback input s1.combs out1 0 out2 0
  ({ s1 with combs := r.1 }, r.2.1, r.2.2)
lemma getD_replicate (L i : ℕ) : (List.replicate L (0:ℚ)).getD i 0 = 0 := by
  simp [List.getD]

lemma wrap_mod (L i : ℕ) (h : i < L) :
    (if L ≤ i + 1 then 0 else i + 1) = (i + 1) % L := by
  by_cases h1 : L ≤ i + 1
  · have h2 : i + 1 = L := by omega
    simp [h1, h2, Nat.mod_self]
  · rw [if_neg h1, Nat.mod_eq_of_lt (by omega)]

/-- C1: for every comb filter with `delayLength >= 1` and a valid buffer, one
`advance` call taps `buffer[writeIndex]` and returns it, updates the feedback
store to `tapped * dampLow + feedbackStore * dampHigh`, overwrites
`buffer[writeIndex]` with `inputSample + feedbackStore * feedback` using the
just-updated store, and advances `writeIndex` to `(writeIndex + 1) mod
delayLength`. -/
theorem comb_advance_order (c : Comb) (b : List ℚ) (d1 d2 fb inS : ℚ)
    (hb : c.buffer = some b) (hL : 1 ≤ c.size) (hidx : c.idx < c.size)
    (hlen : b.length = c.size) :
    (comb_step d1 d2 fb inS c).1 = b.getD c.idx 0 ∧
    (comb_step d1 d2 fb inS c).2.store = b.getD c.idx 0 * d2 + c.store * d1 ∧
    (comb_step d1 d2 fb inS c).2.buffer
      = some (b.set c.idx (inS + (comb_step d1 d2 fb inS c).2.store * fb)) ∧
    (comb_step d1 d2 fb inS c).2.idx = (c.idx + 1) % c.size ∧
    (comb_step d1 d2 fb inS c).2.size = c.size := by
  refine ⟨?_, ?_, ?_, ?_, ?_⟩
  · simp [comb_step, hb]
  · simp [comb_step, hb]
  · simp [comb_step, hb]
  · simp only [comb_step]
    exact wrap_mod _ _ hidx
  · rfl

/-- Witness for C1 at a concrete comb. -/
theorem comb_advance_order_witness :
    (⟨0, some [5, 7], 2, 1⟩ : Comb).buffer = some [5, 7] ∧
    (comb_step (1/2) (1/2) (9/10) 3 ⟨0, some [5, 7], 2, 1⟩).1 = 7 := by
  constructor
  · rfl
  · have h := comb_advance_order ⟨0, some [5, 7], 2, 1⟩ [5, 7] (1/2) (1/2) (9/10) 3
      rfl (by norm_num) (by norm_num) rfl
    rw [h.1]
    rfl
/-- C10: `process()` is deterministic — equal effect states, control values,
input blocks, prior output contents and mode produce equal outputs and equal
final state. -/
theorem symp_run_deterministic (ctrl ctrl' : Ctrl) (add add' : Bool)
    (input input' out1 out1' out2 out2' : List ℚ) (s s' : Symp)
    (hctrl : ctrl = ctrl') (hadd : add = add') (hin : input = input')
    (ho1 : out1 = out1') (ho2 : out2 = out2') (hs : s = s') :
    symp_run_effect ctrl add input out1 out2 s
      = symp_run_effect ctrl' add' input' out1' out2' s' := by
  subst hctrl hadd hin ho1 ho2 hs
  rfl

/-- Witness for C10 at concrete inputs. -/
theorem symp_run_deterministic_witness :
    symp_run_effect ⟨0, 1, 1, 1, 1⟩ false [1, 2] [0, 0] [0, 0]
        (symp_instantiate 48000)
      = symp_run_effect ⟨0, 1, 1, 1, 1⟩ false [1, 2] [0, 0] [0, 0]
        (symp_instantiate 48000) :=
  symp_run_deterministic ⟨0, 1, 1, 1, 1⟩ ⟨0, 1, 1, 1, 1⟩ false false
    [1, 2] [1, 2] [0, 0] [0, 0] [0, 0] [0, 0]
    (symp_instantiate 48000) (symp_instantiate 48000)
    rfl rfl rfl rfl rfl rfl

lemma run_loop_out1_const (ag ig wl wr d1 d2 fb : ℚ) (h : ¬ 0 < wl)
    (xs : List ℚ) :
    ∀ (combs : List Comb) (o1 : List ℚ) (p1 : ℕ) (o2 : List ℚ) (p2 : ℕ),
    (symp_run_loop true ag ig wl wr d1 d2 fb xs combs o1 p1 o2 p2).2.1 = o1 := by
  induction xs with
  | nil => intro combs o1 p1 o2 p2; rfl
  | cons x xs ih =>
    intro combs o1 p1 o2 p2
    simp only [symp_run_loop, if_true, if_neg h]
    exact ih _ _ _ _ _

lemma run_loop_out2_const (ag ig wl wr d1 d2 fb : ℚ) (h : ¬ 0 < wr)
    (xs : List ℚ) :
    ∀ (combs : List Comb) (o1 : List ℚ) (p1 : ℕ) (o2 : List ℚ) (p2 : ℕ),
    (symp_run_loop true ag ig wl wr d1 d2 fb xs combs o1 p1 o2 p2).2.2 = o2 := by
  induction xs with
  | nil => intro combs o1 p1 o2 p2; rfl
  | cons x xs ih =>
    intro combs o1 p1 o2 p2
    simp only [symp_run_loop, if_true, if_neg h]
    exact ih _ _ _ _ _

/-- C6: in add mode, a channel whose clamped wet gain is exactly 0 leaves
that channel's output buffer completely unchanged, regardless of the input
block, the other channel's gain, the adding gain and the bank state. -/
theorem add_mode_zero_wet_untouched (ctrl : Ctrl) (input out1 out2 : List ℚ)
    (s : Symp) :
    (clampWet ctrl.wet_left = 0 →
      (symp_run_effect ctrl true input out1 out2 s).2.1 = out1) ∧
    (clampWet ctrl.wet_right = 0 →
      (symp_run_effect ctrl true input out1 out2 s).2.2 = out2) := by
  constructor
  · intro h
    simp only [symp_run_effect, h]
    exact run_loop_out1_const _ _ _ _ _ _ _ (by norm_num) _ _ _ _ _ _
  · intro h
    simp only [symp_run_effect, h]
    exact run_loop_out2_const _ _ _ _ _ _ _ (by norm_num) _ _ _ _ _ _

/-- Witness for C6: wet-left 0 in add mode leaves the left buffer intact. -/
theorem add_mode_zero_wet_untouched_witness :
    clampWet (0 : ℚ) = 0 ∧
    (symp_run_effect ⟨0, 1, 1, 0, 1⟩ true [1, 2] [5, 6] [7, 8]
        (symp_instantiate 48000)).2.1 = [5, 6] := by
  refine ⟨by decide, ?_⟩
  exact (add_mode_zero_wet_untouched ⟨0, 1, 1, 0, 1⟩ [1, 2] [5, 6] [7, 8]
    (symp_instantiate 48000)).1 (by decide)
lemma clampWet_idem (w : ℚ) : clampWet (clampWet w) = clampWet w := by
  unfold clampWet
  split_ifs <;> first | rfl | linarith

lemma run_loop_combs_indep (add : Bool) (ag ig wl wr wl' wr' d1 d2 fb : ℚ)
    (xs : List ℚ) :
    ∀ (combs : List Comb) (o1 : List ℚ) (p1 : ℕ) (o2 : List ℚ) (p2 : ℕ)
      (o1' : List ℚ) (p1' : ℕ) (o2' : List ℚ) (p2' : ℕ),
    (symp_run_loop add ag ig wl wr d1 d2 fb xs combs o1 p1 o2 p2).1
      = (symp_run_loop add ag ig wl' wr' d1 d2 fb xs combs o1' p1' o2' p2').1 := by
  induction xs with
  | nil => intros; rfl
  | cons x xs ih =>
    intro combs o1 p1 o2 p2 o1' p1' o2' p2'
    cases add
    · simp only [symp_run_loop, Bool.false_eq_true, if_false]
      exact ih _ _ _ _ _ _ _ _ _
    · simp only [symp_run_loop, if_true]
      exact ih _ _ _ _ _ _ _ _ _

/-- C7: the wet gains applied on each `process()` call are the raw control
values clamped to `[0,1]` (0 below, 1 above, identity inside), clamping is
recomputed from the raw controls on each call (pre-clamped controls give the
identical result), and the clamped values are not persisted (the final effect
state is independent of the wet controls). -/
theorem wet_gains_clamped (ctrl : Ctrl) (add : Bool) (input out1 out2 : List ℚ)
    (s : Symp) (w w' : ℚ) :
    (w < 0 → clampWet w = 0) ∧ (1 < w → clampWet w = 1) ∧
    (0 ≤ w → w ≤ 1 → clampWet w = w) ∧
    symp_run_effect ctrl add input out1 out2 s
      = symp_run_effect
          { ctrl with wet_left := clampWet ctrl.wet_left
                      wet_right := clampWet ctrl.wet_right }
          add input out1 out2 s ∧
    (symp_run_effect ctrl add input out1 out2 s).1
      = (symp_run_effect { ctrl with wet_left := w, wet_right := w' }
          add input out1 out2 s).1 := by
  refine ⟨?_, ?_, ?_, ?_, ?_⟩
  · intro h
    simp [clampWet, h]
  · intro h
    rw [clampWet, if_neg (by linarith), if_pos h]
  · intro h1 h2
    rw [clampWet, if_neg (by linarith), if_neg (by linarith)]
  · simp only [symp_run_effect, clampWet_idem]
  · simp only [symp_run_effect]
    congr 1
    exact run_loop_combs_indep _ _ _ _ _ _ _ _ _ _ _ _ _ _ _ _ _ _ _ _

/-- Witness for C7 at concrete raw wet values. -/
theorem wet_gains_clamped_witness :
    clampWet (-2 : ℚ) = 0 ∧ clampWet (3 : ℚ) = 1 ∧ clampWet (1/2 : ℚ) = 1/2 := by
  have h1 := wet_gains_clamped ⟨0, 0, 1, 1, 1⟩ false [] [] []
    (symp_instantiate 48000) (-2) 0
  have h2 := wet_gains_clamped ⟨0, 0, 1, 1, 1⟩ false [] [] []
    (symp_instantiate 48000) 3 0
  have h3 := wet_gains_clamped ⟨0, 0, 1, 1, 1⟩ false [] [] []
    (symp_instantiate 48000) (1/2) 0
  exact ⟨h1.1 (by norm_num), h2.2.1 (by norm_num),
    h3.2.2.1 (by norm_num) (by norm_num)⟩
lemma setup_aux_all_success_fst (R : ℕ) (fs : List ℚ) :
    ∀ (j : ℕ) (acc : List Comb),
    (symp_setup_combs_aux (fun _ => true) R fs j acc).1
      = acc ++ (fs.filter (fun t => decide (0 < t))).map (newComb R) := by
  induction fs with
  | nil => intro j acc; simp [symp_setup_combs_aux]
  | cons f fs ih =>
    intro j acc
    by_cases hf : f ≤ 0
    · have h0 : ¬ (0 < f) := not_lt.mpr hf
      simp [symp_setup_combs_aux, hf, ih, List.filter_cons, h0]
    · have h0 : 0 < f := not_le.mp hf
      simp only [symp_setup_combs_aux, if_neg hf, if_pos rfl, ih,
        List.filter_cons, h0, if_true, List.map_cons]
      simp

/-- C4 (amended): every filter built for a tuning slot `f > 0` has
`delayLength = floor(R / f)`, and `delayLength >= 1` holds whenever
`f <= R`; the code does not prevent `f > R`, for which it constructs a
filter of `delayLength = 0` (see the counterexample theorem). -/
theorem comb_delay_floor (R : ℕ) (tunings : List ℚ) (s : Symp)
    (hs : s.combs = []) (hR : s.sample_rate = R) :
    (symp_activate (fun _ => true) tunings s).combs
      = (tunings.filter (fun t => decide (0 < t))).map (newComb R) ∧
    (∀ f : ℚ, 0 < f → (newComb R f).size = (⌊(R : ℚ) / f⌋).toNat) ∧
    (∀ f : ℚ, 0 < f → f ≤ (R : ℚ) → 1 ≤ (newComb R f).size) := by
  refine ⟨?_, ?_, ?_⟩
  · simp [symp_activate, symp_setup_combs, setup_aux_all_success_fst, hs, hR]
  · intro f _
    rfl
  · intro f hf hfR
    show 1 ≤ newCombSize R f
    have h1 : (1 : ℚ) ≤ (R : ℚ) / f := (one_le_div hf).mpr hfR
    have h2 : (1 : ℤ) ≤ ⌊(R : ℚ) / f⌋ := Int.le_floor.mpr (by exact_mod_cast h1)
    unfold newCombSize
    omega

/-- Witness for C4 at sample rate 48000 and tuning 440. -/
theorem comb_delay_floor_witness :
    ((symp_instantiate 48000).combs = []
      ∧ (symp_instantiate 48000).sample_rate = 48000) ∧
    (symp_activate (fun _ => true) [440] (symp_instantiate 48000)).combs
      = ([(440 : ℚ)].filter (fun t => decide (0 < t))).map (newComb 48000) ∧
    1 ≤ (newComb 48000 440).size := by
  have h := comb_delay_floor 48000 [440] (symp_instantiate 48000) rfl rfl
  exact ⟨⟨rfl, rfl⟩, h.1, h.2.2 440 (by norm_num) (by norm_num)⟩

/-- C4 counterexample: at sample rate 48000, activating with tuning
96000 > 48000 constructs a filter with `delayLength = 0` and an empty
buffer in the active bank, refuting the claim that a filter with
`delayLength == 0` is never constructed. -/
theorem zero_delay_comb_constructed :
    (symp_activate (fun _ => true) [96000] (symp_instantiate 48000)).combs
      = [{ store := 0, buffer := some [], size := 0, idx := 0 }] ∧
    ((symp_activate (fun _ => true) [96000]
        (symp_instantiate 48000)).combs.getD 0 failedComb).size = 0 := by
  have h : (symp_activate (fun _ => true) [96000] (symp_instantiate 48000)).combs
      = [{ store := 0, buffer := some [], size := 0, idx := 0 }] := by
    norm_num [symp_activate, symp_setup_combs, symp_setup_combs_aux,
      symp_instantiate, newComb, newCombSize, Int.floor_eq_iff]
  exact ⟨h, by rw [h]; rfl⟩

/-- C8: activation from an empty bank with all allocations succeeding builds
exactly `count(values > 0)` filters — tunings `<= 0` are skipped — and the
filters appear in tuning-slot order. -/
theorem activation_filter_count (tunings : List ℚ) (s : Symp)
    (hlen : tunings.length ≤ 11) (hs : s.combs = []) :
    ((symp_activate (fun _ => true) tunings s).combs).length
      = (tunings.filter (fun t => decide (0 < t))).length ∧
    (symp_activate (fun _ => true) tunings s).combs
      = (tunings.filter (fun t => decide (0 < t))).map (newComb s.sample_rate) := by
  constructor
  · simp [symp_activate, symp_setup_combs, setup_aux_all_success_fst, hs]
  · simp [symp_activate, symp_setup_combs, setup_aux_all_success_fst, hs]

/-- Witness for C8 with a tuning list containing zero and negative slots. -/
theorem activation_filter_count_witness :
    ([(440 : ℚ), 0, -5, 220].length ≤ 11 ∧ (symp_instantiate 48000).combs = []) ∧
    ((symp_activate (fun _ => true) [440, 0, -5, 220]
        (symp_instantiate 48000)).combs).length = 2 := by
  have h := activation_filter_count [440, 0, -5, 220] (symp_instantiate 48000)
    (by norm_num) rfl
  refine ⟨⟨by norm_num, rfl⟩, ?_⟩
  rw [h.1]
  norm_num

/-- C9: activation appends to the existing filter list instead of rebuilding
it — from a bank already holding `k` filters, activation with `m` positive
tunings leaves `k + m` filters, the original `k` unchanged in place and the
`m` new ones after them (stated under `k + m <= 11`). -/
theorem activation_appends (tunings : List ℚ) (s : Symp)
    (hcap : s.combs.length
      + (tunings.filter (fun t => decide (0 < t))).length ≤ 11) :
    (symp_activate (fun _ => true) tunings s).combs
      = s.combs
        ++ (tunings.filter (fun t => decide (0 < t))).map (newComb s.sample_rate) := by
  simp [symp_activate, symp_setup_combs, setup_aux_all_success_fst]

/-- Witness for C9: a second activation without deactivation accumulates. -/
theorem activation_appends_witness :
    ((symp_activate (fun _ => true) [220] (symp_instantiate 48000)).combs.length
        + ([(440 : ℚ)].filter (fun t => decide (0 < t))).length ≤ 11) ∧
    (symp_activate (fun _ => true) [440]
        (symp_activate (fun _ => true) [220] (symp_instantiate 48000))).combs
      = (symp_activate (fun _ => true) [220] (symp_instantiate 48000)).combs
        ++ [newComb 48000 440] := by
  have hcap : (symp_activate (fun _ => true) [220]
      (symp_instantiate 48000)).combs.length
        + ([(440 : ℚ)].filter (fun t => decide (0 < t))).length ≤ 11 := by
    norm_num [symp_activate, symp_setup_combs, symp_setup_combs_aux,
      symp_instantiate, newComb, newCombSize]
  refine ⟨hcap, ?_⟩
  have h := activation_appends [440]
    (symp_activate (fun _ => true) [220] (symp_instantiate 48000)) hcap
  rw [h]
  norm_num [symp_activate, symp_setup_combs, symp_setup_combs_aux,
    symp_instantiate]

/-- C2 evidence: on a freshly instantiated effect the cached raw feedback and
`scaled_feedback` are both zero, so a first `process()` call with raw
feedback 0 (which lies in `[0,1]`) skips the refresh and applies coefficient
0 instead of `FEEDBACK_OFFSET + 0 * FEEDBACK_RANGE = 0.96`: the code's left
output is `[0, 1, 0]` where the spec's always-recompute behaviour produces
`[0, 1, 0.96]`. -/
theorem feedback_cache_stale_evidence :
    (symp_run_effect ⟨0, 0, 1, 1, 1⟩ false [1, 0, 0] [0, 0, 0] [0, 0, 0]
        (symp_activate (fun _ => true) [48000] (symp_instantiate 48000))).2.1
      = [0, 1, 0] ∧
    (symp_run_effect ⟨0, 0, 1, 1, 1⟩ false [1, 0, 0] [0, 0, 0] [0, 0, 0]
        (symp_activate (fun _ => true) [48000]
          (symp_instantiate 48000))).1.scaled_feedback = 0 ∧
    (symp_run_effect_spec ⟨0, 0, 1, 1, 1⟩ false [1, 0, 0] [0, 0, 0] [0, 0, 0]
        (symp_activate (fun _ => true) [48000] (symp_instantiate 48000))).2.1
      = [0, 1, 24/25] ∧
    FEEDBACK_OFFSET + 0 * FEEDBACK_RANGE = 24/25 ∧ (24/25 : ℚ) ≠ 0 := by
  have hact : symp_activate (fun _ => true) [48000] (symp_instantiate 48000)
      = { run_adding_gain := 0, combs := [⟨0, some [0], 1, 0⟩], damping := 0
          damp1 := 0, damp2 := 1, feedback := 0, scaled_feedback := 0
          sample_rate := 48000 } := by
    norm_num [symp_activate, symp_setup_combs, symp_setup_combs_aux,
      symp_instantiate, newComb, newCombSize]
  rw [hact]
  refine ⟨?_, ?_, ?_, by norm_num [FEEDBACK_OFFSET, FEEDBACK_RANGE], by norm_num⟩
  · norm_num [symp_run_effect, symp_refresh, symp_run_loop, combs_advance,
      comb_step, clampWet, List.getD, List.set]
  · norm_num [symp_run_effect, symp_refresh, symp_run_loop, combs_advance,
      comb_step, clampWet, List.getD, List.set]
  · norm_num [symp_run_effect_spec, symp_refresh_spec, symp_run_loop,
      combs_advance, comb_step, clampWet, List.getD, List.set,
      FEEDBACK_OFFSET, FEEDBACK_RANGE, DAMPING_RANGE]

/-- C3 evidence: when the comb struct allocation succeeds but its buffer
allocation fails, `symp_setup_combs` returns -1, yet `symp_activate`'s test
`!symp_setup_combs(symp)` is false for -1 so the failure is never reported
(and `activate` returns void regardless), and a comb with a `NULL` buffer
remains in the active filter list, reachable from `process()`. -/
theorem activation_failure_unsignaled_evidence :
    (symp_setup_combs (fun j => decide (j = 0)) [440]
        (symp_instantiate 48000)).2 = -1 ∧
    symp_activate_reports_failure (fun j => decide (j = 0)) [440]
        (symp_instantiate 48000) = false ∧
    (symp_activate (fun j => decide (j = 0)) [440]
        (symp_instantiate 48000)).combs = [failedComb] ∧
    failedComb.buffer = none := by
  refine ⟨?_, ?_, ?_, rfl⟩
  · norm_num [symp_setup_combs, symp_setup_combs_aux, symp_instantiate]
  · norm_num [symp_activate_reports_failure, symp_setup_combs,
      symp_setup_combs_aux, symp_instantiate]
  · norm_num [symp_activate, symp_setup_combs, symp_setup_combs_aux,
      symp_instantiate]
lemma oneHot_getD (L k : ℕ) :
    (oneHot L).getD k 0 = if k = 0 then 1 else 0 := by
  cases k with
  | zero => rfl
  | succ m => simp [oneHot, List.getD]

lemma oneHot_set_head (L : ℕ) : (oneHot L).set 0 1 = oneHot L := rfl

lemma oneHot_set_tail (L k : ℕ) (hk : k ≠ 0) :
    (oneHot L).set k 0 = oneHot L := by
  cases k with
  | zero => exact absurd rfl hk
  | succ m => simp [oneHot, List.set_replicate_self]

lemma replicate_eq_cons (L : ℕ) (hL : 1 ≤ L) :
    List.replicate L (0:ℚ) = 0 :: List.replicate (L - 1) 0 := by
  cases L with
  | zero => omega
  | succ m => simp [List.replicate_succ]

lemma succ_mod_eq (m L : ℕ) (hL : 1 ≤ L) : (m + 1) % L = (m % L + 1) % L := by
  conv_lhs => rw [Nat.add_mod]
  rcases Nat.lt_or_ge 1 L with h | h
  · rw [Nat.mod_eq_of_lt h]
  · have hL1 : L = 1 := by omega
    subst hL1
    simp

lemma impulse_state (L : ℕ) (hL : 1 ≤ L) :
    ∀ n, 1 ≤ n →
    comb_iterate 0 1 1 impulse (mkFresh L) n =
      { store := if 2 ≤ n ∧ L ∣ (n - 1) then 1 else 0
        buffer := some (oneHot L), size := L, idx := n % L } := by
  intro n
  induction n with
  | zero => omega
  | succ m ih =>
    intro _
    by_cases hm : 1 ≤ m
    · have hstate := ih hm
      show (comb_step 0 1 1 (impulse m)
        (comb_iterate 0 1 1 impulse (mkFresh L) m)).2 = _
      rw [hstate]
      have hmod : m % L < L := Nat.mod_lt _ (by omega)
      have himp : impulse m = 0 := by
        unfold impulse
        rw [if_neg (by omega)]
      have htmp := oneHot_getD L (m % L)
      have hdvd : L ∣ m ↔ m % L = 0 := Nat.dvd_iff_mod_eq_zero
      simp only [comb_step, Option.getD_some, Option.map_some', himp, htmp,
        mul_one, mul_zero, add_zero, zero_add]
      rw [Comb.mk.injEq]
      refine ⟨?_, ?_, rfl, ?_⟩
      · by_cases h0 : m % L = 0
        · rw [if_pos h0, if_pos ⟨by omega, by simpa [hdvd] using h0⟩]
        · rw [if_neg h0, if_neg (by simp only [Nat.add_sub_cancel, hdvd]; omega)]
      · by_cases h0 : m % L = 0
        · rw [if_pos h0, h0]
          rw [oneHot_set_head]
        · rw [if_neg h0, oneHot_set_tail L (m % L) h0]
      · rw [succ_mod_eq m L hL]
        exact wrap_mod L (m % L) hmod
    · have hm0 : m = 0 := by omega
      subst hm0
      show (comb_step 0 1 1 (impulse 0) (mkFresh L)).2 = _
      have himp : impulse 0 = 1 := rfl
      have htmp := getD_replicate L 0
      simp only [comb_step, mkFresh, Option.getD_some, Option.map_some', himp,
        htmp, mul_one, mul_zero, add_zero, zero_add]
      rw [Comb.mk.injEq]
      refine ⟨by norm_num, ?_, rfl, ?_⟩
      · rw [replicate_eq_cons L hL]
        norm_num [oneHot, List.set]
      · by_cases h1 : L ≤ 1
        · have hL1 : L = 1 := by omega
          subst hL1
          rfl
        · rw [if_neg (by omega), Nat.mod_eq_of_lt (by omega)]

/-- C5: a freshly built comb of delay length `L >= 1` fed a unit impulse
then zeros, with `feedback = 1`, `dampHigh = 0`, `dampLow = 1`, outputs
exactly 1 at samples `L, 2L, 3L, ...` indefinitely and 0 at every other
sample. -/
theorem comb_impulse_recirculation (L : ℕ) (hL : 1 ≤ L) (n : ℕ) :
    comb_output 0 1 1 impulse (mkFresh L) n
      = if 0 < n ∧ L ∣ n then 1 else 0 := by
  cases n with
  | zero =>
    unfold comb_output comb_iterate
    simp [comb_step, mkFresh, getD_replicate]
  | succ m =>
    unfold comb_output
    rw [impulse_state L hL (m + 1) (by omega)]
    simp only [comb_step, Option.getD_some]
    rw [oneHot_getD]
    have hdvd : L ∣ (m + 1) ↔ (m + 1) % L = 0 := Nat.dvd_iff_mod_eq_zero
    by_cases h0 : (m + 1) % L = 0
    · rw [if_pos h0, if_pos ⟨by omega, hdvd.mpr h0⟩]
    · rw [if_neg h0, if_neg (by simp [hdvd]; omega)]

/-- Witness for C5 at `L = 3`: output 1 at sample 6, 0 at sample 5. -/
theorem comb_impulse_recirculation_witness :
    (1 ≤ 3 ∧ comb_output 0 1 1 impulse (mkFresh 3) 6 = 1
      ∧ comb_output 0 1 1 impulse (mkFresh 3) 5 = 0) := by
  refine ⟨by norm_num, ?_, ?_⟩
  · have h := comb_impulse_recirculation 3 (by norm_num) 6
    rw [h]
    norm_num
  · have h := comb_impulse_recirculation 3 (by norm_num) 5
    rw [h]
    norm_num
